import Mathlib

/-!
Verification of the customer-portal security scripts and the WebSocket
notification client of this repository, as a shallow embedding in Lean.

Each definition mirrors one JavaScript function from the source:
* `getCSRFToken` — the anti-forgery token lookup of
  `customer-security-strict.js` (src/unnamed/part_000, lines 10-18) and
  `customer_security_warning_only.js`
  (src/static/js/customer-security-balanced.js, lines 91-112).
* `processQueue` — the drain loop of the violation log queue
  (src/unnamed/part_000, lines 344-387; the identically structured
  `processLogQueue` in customer-security-balanced.js, lines 364-429).
* key-classification of the keydown handlers of part_000 and part_001.
* `incrementViolation` / `checkSession` — customer-security-core.js.
* the reconnect, outbound-action and badge logic of
  `NotificationWebSocket` (src/unnamed/part_002, lines 634-1090).

JavaScript numbers are modelled as `Nat`/`Int` (all values involved are
small integers), nullable values as `Option`, and DOM/network effects as
explicit data in the result types.
-/

namespace PortalSecurity

/-- JavaScript falsiness of a possibly-missing string: `undefined`/`null`
and the empty string are falsy. -/
def jsFalsyStr : Option String → Bool
  | none => true
  | some s => s == ""

/-! ## Anti-forgery token lookup (`getCSRFToken`) -/

/-- The document-level inputs the token lookup reads:
the `[name=csrf-token]` meta tag's `content`, the
`[name=csrfmiddlewaretoken]` form field's `value`, and `document.cookie`.
`none` models a missing element. -/
structure TokenEnv where
  metaContent : Option String
  formValue : Option String
  cookie : String
deriving DecidableEq, Repr

/-- Character-level splitter behind `jsSplit`. `fuel` bounds the
recursion (any `fuel ≥ xs.length` gives the final answer); the
separator is matched greedily left to right, as JavaScript
`String.prototype.split` does for plain-string separators. -/
def splitCharsFuel (sep : List Char) : Nat → List Char → List (List Char)
  | _, [] => [[]]
  | 0, xs => [xs]
  | fuel + 1, x :: xs =>
    if sep ≠ [] ∧ sep.isPrefixOf (x :: xs) then
      [] :: splitCharsFuel sep fuel ((x :: xs).drop sep.length)
    else
      match splitCharsFuel sep fuel xs with
      | [] => [[x]]
      | y :: ys => (x :: y) :: ys

/-- JavaScript `s.split(sep)` for a non-empty plain-string separator. -/
def jsSplit (s sep : String) : List String :=
  (splitCharsFuel sep.toList s.toList.length s.toList).map List.asString

/-- JavaScript `s.startsWith(pre)`. -/
def jsStartsWith (s pre : String) : Bool :=
  pre.toList.isPrefixOf s.toList

/-- The cookie fallback of `getCSRFToken`:
`document.cookie.split('; ').find(row => row.startsWith('csrftoken='))`
and, when found, `cookieValue.split('=')[1]`. -/
def cookieLookup (cookie : String) : Option String :=
  match (jsSplit cookie "; ").find? (fun row => jsStartsWith row "csrftoken=") with
  | some row => (jsSplit row "=").get? 1
  | none => none

/-- `getCSRFToken()` from part_000 lines 10-18 (same logic in
customer-security-balanced.js lines 91-112): meta tag first, then form
field, then the `csrftoken` cookie; each later source is read only when
the accumulated token is still falsy. -/
def getCSRFToken (env : TokenEnv) : Option String :=
  let token := env.metaContent
  let token := if jsFalsyStr token then env.formValue else token
  let token := if jsFalsyStr token then
      match cookieLookup env.cookie with
      | some v => some v
      | none => token
    else token
  token

/-! ## Violation queue drain loop (`processQueue`) -/

/-- One queued violation record, as pushed by `logActivity`:
`{ type, description, time: Date.now() }`. -/
structure LogItem where
  vtype : String
  description : String
  time : Nat
deriving DecidableEq, Repr

/-- The mutable state the drain loop touches: `logQueue`, `isLogging`,
`window.lastLogTime`, plus the list of delivery attempts actually sent
to the backend (each with the `Date.now()` at which the fetch was
issued). -/
structure QState where
  queue : List LogItem
  isLogging : Bool
  lastLogTime : Option Nat
  delivered : List (LogItem × Nat)
deriving DecidableEq, Repr

/-- The outcome of one `processQueue` invocation: either the loop ends
(queue empty, `isLogging` cleared) or another invocation is scheduled
via `setTimeout(processQueue, delayMs)`. -/
inductive StepResult where
  | done (s : QState)
  | again (s : QState) (delayMs : Nat)
deriving DecidableEq, Repr

/-- The debounce guard `window.lastLogTime && (Date.now() - window.lastLogTime) < 2000`.
A stored `0` is falsy in JavaScript, hence the `t != 0` conjunct. -/
def debounceHit (lastLogTime : Option Nat) (now : Nat) : Bool :=
  match lastLogTime with
  | some t => t != 0 && ((now : Int) - (t : Int) < 2000)
  | none => false

/-- `processQueue()` from part_000 lines 344-387. Note the order of
operations, taken directly from the source: the head record is removed
by `logQueue.shift()` *before* the debounce check and before the CSRF
token lookup; both early-return paths schedule `processQueue` again
after 100 ms without restoring the shifted record. A delivery attempt
(the `fetch`) is recorded in `delivered`; its success or failure does
not change the control flow (`finally` schedules the next call). -/
def processQueue (tokenPresent : Bool) (now : Nat) (s : QState) : StepResult :=
  match s.queue with
  | [] => .done { s with isLogging := false }
  | item :: rest =>
    let s1 : QState := { s with isLogging := true, queue := rest }
    if debounceHit s1.lastLogTime now then
      .again s1 100
    else
      let s2 : QState := { s1 with lastLogTime := some now }
      if tokenPresent then
        .again { s2 with delivered := s2.delivered ++ [(item, now)] } 100
      else
        .again s2 100

/-- Run a chain of `processQueue` invocations, one per schedule entry
`(now, tokenPresent)`; the chain stops when the loop reports `done`
(queue empty), matching the real call chain in which every non-final
invocation schedules exactly one successor. -/
def runQueue : List (Nat × Bool) → QState → QState
  | [], s => s
  | (now, tok) :: rest, s =>
    match processQueue tok now s with
    | .done s' => s'
    | .again s' _ => runQueue rest s'

/-! ## Keyboard event classification (part_000 and part_001 keydown handlers) -/

/-- The raw keyboard event descriptor the handlers inspect:
`{key, keyCode, ctrlKey, shiftKey, metaKey, altKey}`. -/
structure KeyEvent where
  key : String
  keyCode : Nat
  ctrlKey : Bool
  shiftKey : Bool
  metaKey : Bool
  altKey : Bool
deriving DecidableEq, Repr

/-- Outcome of part_000's keydown handler on one event: `blocked log?`
means the branch called `preventDefault` (and `logActivity log` when a
log type is attached — the Ctrl+A branch only shows a warning);
`pass` means no branch matched and the event proceeds. -/
inductive KeyAction where
  | blocked (logType : Option String)
  | pass
deriving DecidableEq, Repr

/-- The keydown handler of customer-security-strict.js (part_000,
lines 136-221). Branches are tried top to bottom; each match calls
`preventDefault` and returns. The Ctrl+C / Ctrl+X / Ctrl+A branches
block only when the event target is not exempted (`exempt` is the
result of `isExemptedElement(e.target)`). -/
def strictKeydown (e : KeyEvent) (exempt : Bool) : KeyAction :=
  if e.keyCode == 123 || e.key == "F12" then
    .blocked (some "f12_blocked")
  else if e.ctrlKey && e.shiftKey && (e.keyCode == 73 || e.key == "I") then
    .blocked (some "inspect_blocked")
  else if e.ctrlKey && e.shiftKey && (e.keyCode == 74 || e.key == "J") then
    .blocked (some "console_blocked")
  else if e.ctrlKey && e.shiftKey && (e.keyCode == 67 || e.key == "C") then
    .blocked (some "inspect_blocked")
  else if e.ctrlKey && (e.keyCode == 85 || e.key == "u") then
    .blocked (some "view_source_blocked")
  else if e.ctrlKey && (e.keyCode == 83 || e.key == "s") then
    .blocked (some "save_blocked")
  else if e.ctrlKey && (e.keyCode == 80 || e.key == "p") then
    .blocked (some "print_blocked")
  else if e.ctrlKey && (e.keyCode == 67 || e.key == "c") && !e.shiftKey && !exempt then
    .blocked (some "ctrl_c_blocked")
  else if e.ctrlKey && (e.keyCode == 88 || e.key == "x") && !exempt then
    .blocked (some "ctrl_x_blocked")
  else if e.ctrlKey && (e.keyCode == 65 || e.key == "a") && !exempt then
    .blocked none
  else
    .pass

/-- The keyup handler of part_000 (lines 226-233): PrintScreen is
detected (clipboard cleared, warning, `printscreen_blocked` logged,
screen blurred) but the handler never calls `preventDefault`. -/
def strictKeyupDetectsPrintScreen (e : KeyEvent) : Bool :=
  e.key == "PrintScreen" || e.keyCode == 44

/-- The keydown handler of customer-security-final.js (part_001, lines
145-194). All branches run in order and a later match overwrites
`violationType`; when any branch matched, `preventDefault` and
`stopPropagation` are called and `violationType` is logged. The result
is the final `violationType` (`none` = not blocked). The handler never
consults the event target, so there is no exemption parameter. -/
def finalKeydown (e : KeyEvent) : Option String :=
  let vt : Option String := none
  let vt := if e.keyCode == 44 || e.key == "PrintScreen" then
      some "screenshot_attempt" else vt
  let vt := if e.key == "Meta" && e.shiftKey && e.keyCode == 83 then
      some "screenshot_tool_detected" else vt
  let vt := if e.altKey && (e.keyCode == 44 || e.key == "PrintScreen") then
      some "screenshot_attempt" else vt
  let vt := if e.metaKey && e.shiftKey &&
      (e.keyCode == 51 || e.keyCode == 52 || e.keyCode == 53 || e.keyCode == 54) then
      some "screenshot_attempt" else vt
  let vt := if (e.ctrlKey || e.metaKey) &&
      (e.keyCode == 67 || e.keyCode == 88 || e.keyCode == 86 || e.keyCode == 65) then
      some "copy_attempt" else vt
  let vt := if e.keyCode == 123 ||
      (e.ctrlKey && e.shiftKey && (e.keyCode == 73 || e.keyCode == 74)) ||
      (e.ctrlKey && e.keyCode == 85) then
      some "devtools_detected" else vt
  vt

/-! ## SessionPolicy (customer-security-core.js) -/

/-- `CustomerSecurity.config.maxViolations`. -/
def maxViolations : Nat := 5

/-- `CustomerSecurity.config.idleTimeout` (5 minutes, in ms). -/
def idleTimeoutMs : Int := 5 * 60 * 1000

/-- `CustomerSecurity.config.sessionTimeout` (15 minutes, in ms). -/
def sessionTimeoutMs : Int := 15 * 60 * 1000

/-- `CustomerSecurity.config.warningTime` (2 minutes, in ms). -/
def warningTimeMs : Int := 2 * 60 * 1000

/-- The user-visible effect of one `incrementViolation` call. -/
inductive ViolationEffect where
  | silent
  | warn (count : Nat)
  | terminateSession
deriving DecidableEq, Repr

/-- `incrementViolation` from customer-security-core.js lines 198-211:
increment `state.violations`; at `maxViolations` (5) and beyond call
`showSecurityBlock()` (replace the page body with the termination
view), otherwise from 3 on call `showViolationWarning(count)`. The
function installs no guard against further calls after termination. -/
def incrementViolation (violations : Nat) : Nat × ViolationEffect :=
  let v := violations + 1
  if v ≥ maxViolations then (v, .terminateSession)
  else if v ≥ 3 then (v, .warn v)
  else (v, .silent)

/-- The action taken by one `checkSession` tick. -/
inductive SessionCheck where
  | redirect (url : String)
  | timeoutWarning
  | noAction
deriving DecidableEq, Repr

/-- `checkSession` from customer-security-core.js lines 263-287.
Timestamps are milliseconds (`Date.now()`); `violations` is carried to
record that the function never reads it. The idle check runs first,
then the absolute session cap, then the pre-timeout warning window
(guarded by `warningShown`). -/
def checkSession (violations : Nat) (lastActivity sessionStart now : Int)
    (warningShown : Bool) : SessionCheck :=
  let _ := violations
  let idleTime := now - lastActivity
  let sessionTime := now - sessionStart
  if idleTime > idleTimeoutMs then
    .redirect "/accounts/signin/?timeout=idle"
  else if sessionTime > sessionTimeoutMs then
    .redirect "/accounts/signin/?timeout=expired"
  else if idleTime > idleTimeoutMs - warningTimeMs && !warningShown then
    .timeoutWarning
  else
    .noAction

/-! ## NotificationWebSocket (part_002, lines 634-1090) -/

/-- `this.maxReconnectAttempts`. -/
def maxReconnectAttempts : Nat := 5

/-- `this.reconnectDelay` (ms). -/
def reconnectDelayMs : Nat := 3000

/-- What the `onclose` handler does: schedule `connect()` after
`delayMs` with the incremented attempt counter, or stop and surface the
manual reconnect button. -/
inductive CloseOutcome where
  | reconnectAfter (delayMs : Nat) (attempts : Nat)
  | manualButton
deriving DecidableEq, Repr

/-- The reconnect policy of `ws.onclose` (part_002 lines 692-711):
while `reconnectAttempts < maxReconnectAttempts`, increment the counter
and `setTimeout(connect, reconnectDelay * reconnectAttempts)`;
otherwise show the reconnect button. -/
def onSocketClose (reconnectAttempts : Nat) : CloseOutcome :=
  if reconnectAttempts < maxReconnectAttempts then
    .reconnectAfter (reconnectDelayMs * (reconnectAttempts + 1)) (reconnectAttempts + 1)
  else
    .manualButton

/-- `ws.onopen` resets `reconnectAttempts` to 0 (part_002 line 666). -/
def onSocketOpen (_reconnectAttempts : Nat) : Nat := 0

/-- The manual reconnect button's click handler sets
`reconnectAttempts = 0` before calling `connect()` (part_002 lines
1014-1018). -/
def manualReconnectClick (_reconnectAttempts : Nat) : Nat := 0

/-- `WebSocket.readyState` values. -/
inductive WSReadyState where
  | connecting
  | wsopen
  | closing
  | closed
deriving DecidableEq, Repr

/-- One outbound JSON frame:
`{action, notification_id?, limit?}`. -/
structure OutboundFrame where
  action : String
  notificationId : Option String
  limit : Option Nat
deriving DecidableEq, Repr

/-- The guard shared by all outbound actions:
`if (this.ws && this.ws.readyState === WebSocket.OPEN) this.ws.send(...)`.
Returns the frame sent, or `none` when nothing is sent. The class keeps
no outbound buffer, so an unsent frame is simply gone. -/
def sendIfOpen (ws : Option WSReadyState) (frame : OutboundFrame) : Option OutboundFrame :=
  match ws with
  | some .wsopen => some frame
  | _ => none

/-- `markAsRead(notificationId)` (part_002 lines 931-938). -/
def markAsRead (ws : Option WSReadyState) (nid : String) : Option OutboundFrame :=
  sendIfOpen ws ⟨"mark_read", some nid, none⟩

/-- `markAllAsRead()` (part_002 lines 940-946). -/
def markAllAsRead (ws : Option WSReadyState) : Option OutboundFrame :=
  sendIfOpen ws ⟨"mark_all_read", none, none⟩

/-- `loadNotifications(limit)` (part_002 lines 948-955). -/
def loadNotifications (ws : Option WSReadyState) (limit : Nat) : Option OutboundFrame :=
  sendIfOpen ws ⟨"get_notifications", none, some limit⟩

/-! ## Unread badge (part_002) -/

/-- The `#adminNotifBadge` element as the handlers see it: its
`textContent` and whether it is shown (`display` / `show` class). -/
structure Badge where
  text : String
  visible : Bool
deriving DecidableEq, Repr

/-- JavaScript `parseInt` on the strings that occur as badge text:
the longest leading run of decimal digits (`parseInt("99+") = 99`);
`none` models `NaN` (no leading digit). -/
def parseIntPrefix (s : String) : Option Nat :=
  let digits := s.toList.takeWhile (·.isDigit)
  if digits.isEmpty then none
  else some (digits.foldl (fun acc c => acc * 10 + (c.toNat - 48)) 0)

/-- `updateUnreadBadge(count)` (part_002 lines 783-797): a positive
count is rendered (capped display `"99+"` above 99) and the badge
shown; count 0 only hides the badge — the stale `textContent` is left
in place. -/
def updateUnreadBadge (count : Nat) (b : Badge) : Badge :=
  if count > 0 then
    { text := if count > 99 then "99+" else toString count, visible := true }
  else
    { b with visible := false }

/-- `handleNewNotification` as far as the badge and toast are concerned
(part_002 lines 756-781): read `parseInt(badge.textContent || '0')`,
write back `currentCount + 1`, and show exactly one toast
(`showNotificationToast`). The returned `Nat` is the number of toasts
produced. A non-numeric `textContent` cannot occur here, so `parseInt`'s
`NaN` case is mapped to 0. -/
def handleNewNotification (b : Badge) : Badge × Nat :=
  let raw := if b.text = "" then "0" else b.text
  let currentCount := (parseIntPrefix raw).getD 0
  (updateUnreadBadge (currentCount + 1) b, 1)

/-- The `mark_all_read_response` branch of `handleMessage`
(part_002 lines 738-741): `this.updateUnreadBadge(0)`. -/
def markAllReadResponse (b : Badge) : Badge :=
  updateUnreadBadge 0 b

/-- The unread count a user can observe on the badge: the parsed text
when shown, 0 when hidden. -/
def badgeCount (b : Badge) : Nat :=
  if b.visible then (parseIntPrefix b.text).getD 0 else 0

/-! # Theorems -/

/-- C7: the anti-forgery token lookup tries the meta tag content, then
the form hidden-field value, then the `csrftoken` cookie, in that fixed
order, and returns the first source that yields a (non-empty) value; a
later source is consulted only when every earlier source yielded
nothing. -/
theorem C7_token_priority (env : TokenEnv) :
    (∀ s, env.metaContent = some s → s ≠ "" → getCSRFToken env = some s) ∧
    (∀ s, jsFalsyStr env.metaContent = true → env.formValue = some s → s ≠ "" →
      getCSRFToken env = some s) ∧
    (∀ v, jsFalsyStr env.metaContent = true → jsFalsyStr env.formValue = true →
      cookieLookup env.cookie = some v → getCSRFToken env = some v) := by
  obtain ⟨m, f, c⟩ := env
  refine ⟨?_, ?_, ?_⟩
  · rintro s rfl hs
    simp [getCSRFToken, jsFalsyStr, hs]
  · rintro s hm rfl hs
    cases m with
    | none => simp [getCSRFToken, jsFalsyStr, hs]
    | some m' =>
      have hm' : m' = "" := by simpa [jsFalsyStr] using hm
      subst hm'
      simp [getCSRFToken, jsFalsyStr, hs]
  · rintro v hm hf hc
    cases m with
    | none =>
      cases f with
      | none => simp [getCSRFToken, jsFalsyStr, hc]
      | some f' =>
        have hf' : f' = "" := by simpa [jsFalsyStr] using hf
        subst hf'
        simp [getCSRFToken, jsFalsyStr, hc]
    | some m' =>
      have hm' : m' = "" := by simpa [jsFalsyStr] using hm
      subst hm'
      cases f with
      | none => simp [getCSRFToken, jsFalsyStr, hc]
      | some f' =>
        have hf' : f' = "" := by simpa [jsFalsyStr] using hf
        subst hf'
        simp [getCSRFToken, jsFalsyStr, hc]

/-- Witness for C7 at concrete documents: a meta token wins over form
and cookie; with no meta the form wins; with neither, the cookie is
parsed out of `document.cookie`. -/
theorem C7_token_priority_witness :
    getCSRFToken ⟨some "METATOK", some "FORMTOK", "a=b; csrftoken=COOKTOK"⟩ = some "METATOK" ∧
    getCSRFToken ⟨none, some "FORMTOK", "a=b; csrftoken=COOKTOK"⟩ = some "FORMTOK" ∧
    getCSRFToken ⟨none, none, "a=b; csrftoken=COOKTOK"⟩ = some "COOKTOK" :=
  ⟨(C7_token_priority _).1 "METATOK" rfl (by decide),
   (C7_token_priority _).2.1 "FORMTOK" (by decide) rfl (by decide),
   (C7_token_priority _).2.2 "COOKTOK" (by decide) (by decide) (by decide)⟩

/-- A first violation record, as enqueued by `logActivity`. -/
def itemA : LogItem := ⟨"right_click_blocked", "Right-click attempt blocked", 1000⟩

/-- A second violation record enqueued in the same tick as `itemA`. -/
def itemB : LogItem := ⟨"copy_blocked", "Copy attempt blocked", 1000⟩

/-- C1 counterexample: two records enqueued in a single tick do **not**
yield two deliveries. The drain chain polls at t=1000 (delivers
`itemA`, sets `lastLogTime`), t=1100 (the 100 ms follow-up after a
prompt fetch: the debounce branch fires, but `logQueue.shift()` already
removed `itemB`, so it is discarded) and t=1200 (queue empty, loop
ends). Exactly one delivery results and the queue is empty, refuting
"enqueuing N violation records in a single tick results in exactly N
deliveries ... without discarding it". -/
theorem C1_drain_counterexample :
    (runQueue [(1000, true), (1100, true), (1200, true)]
        ⟨[itemA, itemB], false, none, []⟩).delivered = [(itemA, 1000)] ∧
    (runQueue [(1000, true), (1100, true), (1200, true)]
        ⟨[itemA, itemB], false, none, []⟩).queue = [] := by
  decide

/-- C1 amended: the drain loop removes the head record *before* the
debounce check, so a deferred cycle discards the removed record (the
queue keeps only the rest, nothing is delivered) and the 100 ms retry
processes the next record, not the same one; deliveries that do happen
follow enqueue (FIFO) order — in the two-records-one-tick run only the
first record is ever delivered. -/
theorem C1_drain_amended :
    (∀ (s : QState) (tok : Bool) (now : Nat) (item : LogItem) (rest : List LogItem),
      s.queue = item :: rest → debounceHit s.lastLogTime now = true →
      processQueue tok now s = .again { s with queue := rest, isLogging := true } 100) ∧
    (runQueue [(1000, true), (1100, true), (1200, true)]
        ⟨[itemA, itemB], false, none, []⟩).delivered = [(itemA, 1000)] := by
  constructor
  · intro s tok now item rest hq hd
    simp [processQueue, hq, hd]
  · decide

/-- Witness for C1 amended at a concrete deferred cycle: with
`itemB` at the head and a delivery 100 ms ago, the cycle discards
`itemB` and schedules the next poll. -/
theorem C1_drain_amended_witness :
    processQueue true 1100 ⟨[itemB], true, some 1000, [(itemA, 1000)]⟩ =
      .again ⟨[], true, some 1000, [(itemA, 1000)]⟩ 100 :=
  C1_drain_amended.1 _ true 1100 itemB [] rfl (by decide)

/-- C2 counterexample: a drain cycle with no discoverable anti-forgery
token indeed issues no network request (`delivered` stays empty), but
the record does **not** remain at the head of the queue: it was shifted
off before the token lookup and is discarded, so the next tick has
nothing left to retry. -/
theorem C2_token_missing_counterexample :
    processQueue false 1000 ⟨[itemA], false, none, []⟩ =
      .again ⟨[], true, some 1000, []⟩ 100 ∧
    (QState.mk [] true (some 1000) []).queue.head? ≠ some itemA := by
  decide

/-- C2 amended: when no token is discoverable and the debounce does not
fire, the cycle issues no network request (`delivered` is unchanged),
but the head record has already been removed and is discarded rather
than left for retry; `lastLogTime` is still updated and the loop
re-polls after 100 ms for the remaining records. -/
theorem C2_token_missing_amended (s : QState) (now : Nat) (item : LogItem)
    (rest : List LogItem) (hq : s.queue = item :: rest)
    (hd : debounceHit s.lastLogTime now = false) :
    processQueue false now s =
      .again { s with queue := rest, isLogging := true, lastLogTime := some now } 100 := by
  simp [processQueue, hq, hd]

/-- Witness for C2 amended: a fresh queue of two records, token absent
(`lastLogTime` holds the falsy 0, so the debounce is skipped): the head
is dropped without any delivery. -/
theorem C2_token_missing_amended_witness :
    processQueue false 5000 ⟨[itemA, itemB], false, some 0, []⟩ =
      .again ⟨[itemB], true, some 5000, []⟩ 100 :=
  C2_token_missing_amended _ 5000 itemA [itemB] rfl (by decide)

/-- C3 counterexample: a Meta+Shift+S keypress — `key` is `"S"` (the
letter actually pressed), `keyCode` 83, `shiftKey` and `metaKey` set —
matches the Meta+Shift+S row of the table, yet neither cited keydown
handler classifies it or prevents its default: part_000 has no such
branch, and part_001's snipping-tool branch demands
`e.key === 'Meta' && e.keyCode === 83`, which no keypress satisfies
(`key = "Meta"` only on the modifier key itself, whose keyCode is not
83). -/
theorem C3_meta_shift_s_counterexample :
    strictKeydown ⟨"S", 83, false, true, true, false⟩ false = .pass ∧
    finalKeydown ⟨"S", 83, false, true, true, false⟩ = none := by
  decide

/-- C3 amended: for every table row except Meta+Shift+S, a
representative non-exempt keyboard event is blocked (default
prevented) by at least one of the two cited handlers, with the kinds
each handler actually emits: part_000 covers F12, Ctrl+Shift+I/J/C and
Ctrl+U/S/P unconditionally and Ctrl+C (no Shift)/X/A on non-exempt
targets; part_001 covers PrintScreen, Alt+PrintScreen and
Cmd+Shift+3/4/5/6 as `screenshot_attempt`, Ctrl/Cmd+C/X/A as
`copy_attempt`, and F12 / Ctrl+Shift+I,J / Ctrl+U as
`devtools_detected`. Part_001 classifies Ctrl+Shift+C as
`copy_attempt` (its copy branch matches keyCode 67 before its DevTools
branch, which only lists I and J), and part_000 alone handles the
PrintScreen row only in its keyup handler, which detects but never
prevents. -/
theorem C3_key_table_amended :
    -- F12
    strictKeydown ⟨"F12", 123, false, false, false, false⟩ false
        = .blocked (some "f12_blocked") ∧
    finalKeydown ⟨"F12", 123, false, false, false, false⟩ = some "devtools_detected" ∧
    -- Ctrl+Shift+I / J / C
    strictKeydown ⟨"I", 73, true, true, false, false⟩ false
        = .blocked (some "inspect_blocked") ∧
    finalKeydown ⟨"I", 73, true, true, false, false⟩ = some "devtools_detected" ∧
    strictKeydown ⟨"J", 74, true, true, false, false⟩ false
        = .blocked (some "console_blocked") ∧
    finalKeydown ⟨"J", 74, true, true, false, false⟩ = some "devtools_detected" ∧
    strictKeydown ⟨"C", 67, true, true, false, false⟩ false
        = .blocked (some "inspect_blocked") ∧
    finalKeydown ⟨"C", 67, true, true, false, false⟩ = some "copy_attempt" ∧
    -- Ctrl+U, Ctrl+S, Ctrl+P
    strictKeydown ⟨"u", 85, true, false, false, false⟩ false
        = .blocked (some "view_source_blocked") ∧
    finalKeydown ⟨"u", 85, true, false, false, false⟩ = some "devtools_detected" ∧
    strictKeydown ⟨"s", 83, true, false, false, false⟩ false
        = .blocked (some "save_blocked") ∧
    finalKeydown ⟨"s", 83, true, false, false, false⟩ = none ∧
    strictKeydown ⟨"p", 80, true, false, false, false⟩ false
        = .blocked (some "print_blocked") ∧
    finalKeydown ⟨"p", 80, true, false, false, false⟩ = none ∧
    -- Ctrl/Cmd+C (no Shift)
    strictKeydown ⟨"c", 67, true, false, false, false⟩ false
        = .blocked (some "ctrl_c_blocked") ∧
    finalKeydown ⟨"c", 67, true, false, false, false⟩ = some "copy_attempt" ∧
    strictKeydown ⟨"c", 67, false, false, true, false⟩ false = .pass ∧
    finalKeydown ⟨"c", 67, false, false, true, false⟩ = some "copy_attempt" ∧
    -- Ctrl/Cmd+X
    strictKeydown ⟨"x", 88, true, false, false, false⟩ false
        = .blocked (some "ctrl_x_blocked") ∧
    finalKeydown ⟨"x", 88, false, false, true, false⟩ = some "copy_attempt" ∧
    -- Ctrl/Cmd+A
    strictKeydown ⟨"a", 65, true, false, false, false⟩ false = .blocked none ∧
    finalKeydown ⟨"a", 65, false, false, true, false⟩ = some "copy_attempt" ∧
    -- PrintScreen, Alt+PrintScreen
    strictKeydown ⟨"PrintScreen", 44, false, false, false, false⟩ false = .pass ∧
    strictKeyupDetectsPrintScreen ⟨"PrintScreen", 44, false, false, false, false⟩ = true ∧
    finalKeydown ⟨"PrintScreen", 44, false, false, false, false⟩
        = some "screenshot_attempt" ∧
    finalKeydown ⟨"PrintScreen", 44, false, false, false, true⟩
        = some "screenshot_attempt" ∧
    -- Cmd+Shift+3 / 4 / 5 / 6
    finalKeydown ⟨"#", 51, false, true, true, false⟩ = some "screenshot_attempt" ∧
    finalKeydown ⟨"$", 52, false, true, true, false⟩ = some "screenshot_attempt" ∧
    finalKeydown ⟨"%", 53, false, true, true, false⟩ = some "screenshot_attempt" ∧
    finalKeydown ⟨"^", 54, false, true, true, false⟩ = some "screenshot_attempt" := by
  decide

/-- C4 counterexample: after the counter has reached the
max-violations threshold (5), a further violation event is still
processed — `incrementViolation` has no terminated-guard, so the call
increments the counter to 6 and re-triggers the termination rendering,
refuting "no further events are processed". -/
theorem C4_thresholds_counterexample :
    incrementViolation 5 = (6, .terminateSession) := by
  decide

/-- C4 amended: at violation count 2 no warning is shown; the increment
reaching 3 shows the warning once; the increment reaching 5 renders the
termination view; the counter always increments (every event keeps
being processed, with each post-threshold violation re-triggering the
termination view), and from the termination threshold on every further
event again terminates — the transition is never undone. -/
theorem C4_thresholds_amended :
    incrementViolation 1 = (2, .silent) ∧
    incrementViolation 2 = (3, .warn 3) ∧
    incrementViolation 4 = (5, .terminateSession) ∧
    (∀ v : Nat, (incrementViolation v).1 = v + 1) ∧
    (∀ v : Nat, 4 ≤ v → (incrementViolation v).2 = .terminateSession) := by
  refine ⟨by decide, by decide, by decide, ?_, ?_⟩
  · intro v
    simp only [incrementViolation]
    split
    · rfl
    · split <;> rfl
  · intro v hv
    have h5 : v + 1 ≥ maxViolations := by simp [maxViolations]; omega
    simp [incrementViolation, h5]

/-- Witness for C4 amended at a post-termination count: the 8th
violation is still processed and terminates again. -/
theorem C4_thresholds_amended_witness :
    (incrementViolation 7).2 = ViolationEffect.terminateSession :=
  C4_thresholds_amended.2.2.2.2 7 (by decide)

/-- C5: whenever `now - lastActivity` exceeds the idle threshold, the
session check redirects to sign-in with the idle reason, for every
violation count (the function never reads it); when idle time is
within bounds but `now - sessionStart` exceeds the absolute cap, it
redirects with the expired reason instead. -/
theorem C5_session_timeout (v : Nat) (la ss now : Int) (ws : Bool) :
    (now - la > idleTimeoutMs →
      checkSession v la ss now ws = .redirect "/accounts/signin/?timeout=idle") ∧
    (now - la ≤ idleTimeoutMs → now - ss > sessionTimeoutMs →
      checkSession v la ss now ws = .redirect "/accounts/signin/?timeout=expired") := by
  constructor
  · intro h
    simp [checkSession, h]
  · intro h1 h2
    have h1' : ¬ (now - la > idleTimeoutMs) := not_lt.mpr h1
    simp [checkSession, h1', h2]

/-- Witness for C5 at concrete clock values, with violation count 0:
five minutes and a millisecond of idleness redirects with the idle
reason; constant activity past the fifteen-minute cap redirects with
the expired reason. -/
theorem C5_session_timeout_witness :
    checkSession 0 0 0 300001 false = .redirect "/accounts/signin/?timeout=idle" ∧
    checkSession 0 900001 0 900001 false = .redirect "/accounts/signin/?timeout=expired" :=
  ⟨(C5_session_timeout 0 0 0 300001 false).1 (by decide),
   (C5_session_timeout 0 900001 0 900001 false).2 (by decide) (by decide)⟩

/-- C6: while fewer than the maximum (5) reconnect attempts have been
made, a close schedules reconnect attempt n after `reconnectDelay × n`
milliseconds (linearly growing); at the maximum the client stops and
surfaces the manual reconnect button, whose click handler resets the
attempt counter to zero (as does a successful open). -/
theorem C6_reconnect_policy (n : Nat) :
    (n < maxReconnectAttempts →
      onSocketClose n = .reconnectAfter (reconnectDelayMs * (n + 1)) (n + 1)) ∧
    (maxReconnectAttempts ≤ n → onSocketClose n = .manualButton) ∧
    manualReconnectClick n = 0 ∧
    onSocketOpen n = 0 := by
  refine ⟨fun h => ?_, fun h => ?_, rfl, rfl⟩
  · simp [onSocketClose, h]
  · simp [onSocketClose, Nat.not_lt.mpr h]

/-- Witness for C6 at concrete attempt counts: the first retry waits
3000 ms, the fifth 15000 ms, the sixth close gives up, and the manual
button re-arms the counter. -/
theorem C6_reconnect_policy_witness :
    onSocketClose 0 = .reconnectAfter 3000 1 ∧
    onSocketClose 4 = .reconnectAfter 15000 5 ∧
    onSocketClose 5 = .manualButton ∧
    manualReconnectClick 5 = 0 :=
  ⟨(C6_reconnect_policy 0).1 (by decide),
   (C6_reconnect_policy 4).1 (by decide),
   (C6_reconnect_policy 5).2.1 (by decide),
   (C6_reconnect_policy 5).2.2.1⟩

/-- C8: every outbound socket action (`markAsRead`, `markAllAsRead`,
`loadNotifications`) sends nothing when the connection is not currently
open — and, the class holding no outbound buffer, the unsent request is
dropped, not queued; when the connection is open, the documented JSON
frame is sent. -/
theorem C8_outbound_requires_open (ws : Option WSReadyState) (nid : String) (limit : Nat) :
    (ws ≠ some .wsopen →
      markAsRead ws nid = none ∧ markAllAsRead ws = none ∧
      loadNotifications ws limit = none) ∧
    (markAsRead (some .wsopen) nid = some ⟨"mark_read", some nid, none⟩ ∧
     markAllAsRead (some .wsopen) = some ⟨"mark_all_read", none, none⟩ ∧
     loadNotifications (some .wsopen) limit = some ⟨"get_notifications", none, some limit⟩) := by
  constructor
  · intro h
    cases ws with
    | none => exact ⟨rfl, rfl, rfl⟩
    | some st =>
      cases st with
      | wsopen => exact absurd rfl h
      | connecting => exact ⟨rfl, rfl, rfl⟩
      | closing => exact ⟨rfl, rfl, rfl⟩
      | closed => exact ⟨rfl, rfl, rfl⟩
  · exact ⟨rfl, rfl, rfl⟩

/-- Witness for C8 on a closed and an open connection. -/
theorem C8_outbound_requires_open_witness :
    markAsRead (some .closed) "42" = none ∧
    markAllAsRead (some .closed) = none ∧
    loadNotifications (some .closed) 10 = none ∧
    markAsRead (some .wsopen) "42" = some ⟨"mark_read", some "42", none⟩ :=
  ⟨((C8_outbound_requires_open (some .closed) "42" 10).1 (by decide)).1,
   ((C8_outbound_requires_open (some .closed) "42" 10).1 (by decide)).2.1,
   ((C8_outbound_requires_open (some .closed) "42" 10).1 (by decide)).2.2,
   (C8_outbound_requires_open (some .wsopen) "42" 10).2.1⟩

/-- C9 counterexample: `updateUnreadBadge(0)` hides the badge but
leaves its `textContent` in place. Starting from a badge showing "5", a
`mark_all_read_response` does reset the observable count to 0, but the
next `new_notification` re-reads the stale "5" and shows 6 — an
increment of 6 from count 0, refuting "increments the badge count by
exactly 1 ... for every starting badge count". -/
theorem C9_badge_counterexample :
    badgeCount (markAllReadResponse ⟨"5", true⟩) = 0 ∧
    badgeCount (handleNewNotification (markAllReadResponse ⟨"5", true⟩)).1 = 6 := by
  decide

/-- C9 amended: a `new_notification` frame produces exactly one toast
and sets the badge to `parseInt(textContent) + 1` — an increment of
exactly 1 only while the badge text is the plain rendering of a count
below 100 (at "99+" the text re-reads as 99, and after a reset the
stale text, not 0, is the base); a `mark_all_read_response` hides the
badge (observable count 0) but leaves the old text in place. -/
theorem C9_badge_amended :
    (∀ (b : Badge) (c : Nat), b.text ≠ "" → parseIntPrefix b.text = some c →
      c + 1 ≤ 99 → handleNewNotification b = (⟨toString (c + 1), true⟩, 1)) ∧
    (∀ b : Badge, (markAllReadResponse b).visible = false ∧
      (markAllReadResponse b).text = b.text) := by
  constructor
  · intro b c ht hp hc
    have hlt : ¬ (c + 1 > 99) := by omega
    simp [handleNewNotification, ht, hp, updateUnreadBadge, hlt]
  · intro b
    exact ⟨rfl, rfl⟩

/-- Witness for C9 amended: a badge showing "5" goes to "6" with one
toast. -/
theorem C9_badge_amended_witness :
    handleNewNotification ⟨"5", true⟩ = (⟨"6", true⟩, 1) :=
  C9_badge_amended.1 ⟨"5", true⟩ 5 (by decide) (by decide) (by decide)

end PortalSecurity
